import Mathlib

/-
Verification of the AdStreamr server (src/server/routes.ts) against its
natural-language specification.

The HTTP route layer is embedded shallowly: each Express handler becomes a
pure Lean function from (storage state, session, request data) to (new
storage state, HTTP outcome).  The in-memory storage layer is embedded
from the `MemStorage` class, whose source is the third concatenated
segment of src/client/src/App.tsx (lines 287-673): one `Map` from integer
id to record per entity kind, with a per-kind post-incremented integer
counter supplying fresh ids.  The entity shapes come from the Drizzle
schema in the second segment of the same file (lines 96-286).  Nullable
TypeScript fields become `Option`, numbers and timestamps become `Nat`
(no arithmetic here comes close to overflow), and the multipart-upload
middleware (multer) is modelled as the guard stage that runs before the
handler body.
-/

set_option autoImplicit false

namespace AdStreamr

/-- Session state held by the express-session middleware: exactly the
`userId` and `userType` that the login handler stores.  A request with no
session or with no `userId` set in it is modelled as `none` (storage ids
start at 1, so the JavaScript falsy check `!req.session.userId` coincides
with absence). -/
structure Session where
  userId : Nat
  userType : String
  deriving Repr, DecidableEq

/-- User record, fields as in the schema: unique email/username
(case-insensitive), hashed password, and a userType of "company" or
"individual". -/
structure User where
  id : Nat
  email : String
  username : String
  password : String
  fullName : String
  userType : String
  createdAt : Nat
  deriving Repr, DecidableEq

/-- Company profile, one-to-one with a company user. -/
structure CompanyProfile where
  id : Nat
  userId : Nat
  companyName : String
  industry : String
  website : String
  description : String
  deriving Repr, DecidableEq

/-- Creator profile, one-to-one with an individual user. -/
structure CreatorProfile where
  id : Nat
  userId : Nat
  bio : String
  niche : String
  youtubeChannel : String
  deriving Repr, DecidableEq

/-- Campaign record owned by a company user. -/
structure Campaign where
  id : Nat
  userId : Nat
  name : String
  status : String
  budget : Nat
  spent : Nat
  startDate : Nat
  endDate : Option Nat
  targetAudience : Option String
  createdAt : Nat
  deriving Repr, DecidableEq

/-- Ad record: an uploaded ad asset, optionally linked to a campaign. -/
structure Ad where
  id : Nat
  userId : Nat
  campaignId : Option Nat
  title : String
  description : Option String
  filePath : String
  duration : Nat
  status : String
  createdAt : Nat
  deriving Repr, DecidableEq

/-- Video record: an uploaded creator video with its processing artefacts. -/
structure Video where
  id : Nat
  userId : Nat
  title : String
  description : Option String
  category : Option String
  rawFilePath : String
  processedFilePath : Option String
  thumbnailPath : Option String
  duration : Option Nat
  status : String
  adPlacement : Option String
  adPreferences : String
  views : Nat
  createdAt : Nat
  deriving Repr, DecidableEq

/-- Video-Ad join record (schema table `videoAds`): which ads appear in
which videos.  No route under verification touches it, but it is part of
the storage state. -/
structure VideoAd where
  id : Nat
  videoId : Nat
  adId : Nat
  placementTime : Option Nat
  views : Nat
  clicks : Nat
  createdAt : Nat
  deriving Repr, DecidableEq

/-- Partial update for a campaign, one optional slot per record field.
A `some` slot is a key present in the PATCH request body.  The update
methods declare `Partial<InsertX>` parameters, but that is compile-time
only: the routes pass the raw `req.body` and the runtime object spread
merges every key present, identifiers and timestamps included, so the
patch types carry a slot for every record field. -/
structure CampaignPatch where
  id : Option Nat := none
  userId : Option Nat := none
  name : Option String := none
  status : Option String := none
  budget : Option Nat := none
  spent : Option Nat := none
  startDate : Option Nat := none
  endDate : Option (Option Nat) := none
  targetAudience : Option (Option String) := none
  createdAt : Option Nat := none
  deriving Repr, DecidableEq

/-- Partial update for an ad, one optional slot per record field. -/
structure AdPatch where
  id : Option Nat := none
  userId : Option Nat := none
  campaignId : Option (Option Nat) := none
  title : Option String := none
  description : Option (Option String) := none
  filePath : Option String := none
  duration : Option Nat := none
  status : Option String := none
  createdAt : Option Nat := none
  deriving Repr, DecidableEq

/-- Partial update for a video, one optional slot per record field. -/
structure VideoPatch where
  id : Option Nat := none
  userId : Option Nat := none
  title : Option String := none
  description : Option (Option String) := none
  category : Option (Option String) := none
  rawFilePath : Option String := none
  processedFilePath : Option (Option String) := none
  thumbnailPath : Option (Option String) := none
  duration : Option (Option Nat) := none
  status : Option String := none
  adPlacement : Option (Option String) := none
  adPreferences : Option String := none
  views : Option Nat := none
  createdAt : Option Nat := none
  deriving Repr, DecidableEq

/-- JavaScript `String.prototype.toLowerCase`, modelled characterwise
(the data here is ASCII identifiers and emails). -/
def lowerStr (s : String) : String :=
  ⟨s.data.map Char.toLower⟩

/-- JavaScript `String.prototype.startsWith`, modelled on the character
lists. -/
def strStartsWith (s pre : String) : Bool :=
  pre.data.isPrefixOf s.data

/-- Shallow merge of a patch onto a campaign, field by field, as produced
by the JavaScript object spread in the storage update method. -/
def mergeCampaign (c : Campaign) (p : CampaignPatch) : Campaign :=
  { id := p.id.getD c.id
    userId := p.userId.getD c.userId
    name := p.name.getD c.name
    status := p.status.getD c.status
    budget := p.budget.getD c.budget
    spent := p.spent.getD c.spent
    startDate := p.startDate.getD c.startDate
    endDate := p.endDate.getD c.endDate
    targetAudience := p.targetAudience.getD c.targetAudience
    createdAt := p.createdAt.getD c.createdAt }

/-- Shallow merge of a patch onto an ad. -/
def mergeAd (a : Ad) (p : AdPatch) : Ad :=
  { id := p.id.getD a.id
    userId := p.userId.getD a.userId
    campaignId := p.campaignId.getD a.campaignId
    title := p.title.getD a.title
    description := p.description.getD a.description
    filePath := p.filePath.getD a.filePath
    duration := p.duration.getD a.duration
    status := p.status.getD a.status
    createdAt := p.createdAt.getD a.createdAt }

/-- Shallow merge of a patch onto a video. -/
def mergeVideo (v : Video) (p : VideoPatch) : Video :=
  { id := p.id.getD v.id
    userId := p.userId.getD v.userId
    title := p.title.getD v.title
    description := p.description.getD v.description
    category := p.category.getD v.category
    rawFilePath := p.rawFilePath.getD v.rawFilePath
    processedFilePath := p.processedFilePath.getD v.processedFilePath
    thumbnailPath := p.thumbnailPath.getD v.thumbnailPath
    duration := p.duration.getD v.duration
    status := p.status.getD v.status
    adPlacement := p.adPlacement.getD v.adPlacement
    adPreferences := p.adPreferences.getD v.adPreferences
    views := p.views.getD v.views
    createdAt := p.createdAt.getD v.createdAt }

/-- Lookup in an id-keyed association map (a JavaScript `Map` from integer
id to record, keys unique by construction). -/
def mapGet {β : Type} (m : List (Nat × β)) (id : Nat) : Option β :=
  match m with
  | [] => none
  | (k, v) :: rest => if k = id then some v else mapGet rest id

/-- JavaScript `Map.set`: replace the value at an existing key, or append
a fresh entry. -/
def mapSet {β : Type} (m : List (Nat × β)) (id : Nat) (v : β) : List (Nat × β) :=
  match m with
  | [] => [(id, v)]
  | (k, w) :: rest => if k = id then (id, v) :: rest else (k, w) :: mapSet rest id v

/-- JavaScript `Map.delete`: remove the entry at a key if present (a key
occurs at most once in a `Map`, so dropping every occurrence of the key
from the association list models it exactly). -/
def mapDelete {β : Type} (m : List (Nat × β)) (id : Nat) : List (Nat × β) :=
  match m with
  | [] => []
  | (k, w) :: rest => if k = id then mapDelete rest id else (k, w) :: mapDelete rest id

/-- Values of an id-keyed map, in insertion order (JavaScript `Map.values`). -/
def mapValues {β : Type} (m : List (Nat × β)) : List β :=
  m.map Prod.snd

/-- State of the `MemStorage` class (App.tsx third segment, lines
352-385): one `Map` from integer id to record per entity kind, plus one
post-incremented integer counter per entity kind holding the next id (the
source's `userId`, `companyProfileId`, `creatorProfileId`, `campaignId`,
`adId`, `videoId`, `videoAdId` fields, here prefixed with `next`). -/
structure Storage where
  users : List (Nat × User)
  companyProfiles : List (Nat × CompanyProfile)
  creatorProfiles : List (Nat × CreatorProfile)
  campaigns : List (Nat × Campaign)
  ads : List (Nat × Ad)
  videos : List (Nat × Video)
  videoAds : List (Nat × VideoAd)
  nextUserId : Nat
  nextCompanyProfileId : Nat
  nextCreatorProfileId : Nat
  nextCampaignId : Nat
  nextAdId : Nat
  nextVideoId : Nat
  nextVideoAdId : Nat
  deriving Repr, DecidableEq

/-- Empty storage: the `MemStorage` constructor (lines 369-385), empty
maps and every counter starting at 1. -/
def Storage.empty : Storage :=
  { users := []
    companyProfiles := []
    creatorProfiles := []
    campaigns := []
    ads := []
    videos := []
    videoAds := []
    nextUserId := 1
    nextCompanyProfileId := 1
    nextCreatorProfileId := 1
    nextCampaignId := 1
    nextAdId := 1
    nextVideoId := 1
    nextVideoAdId := 1 }

/-- MemStorage.getUser (lines 388-390): `this.users.get(id)`. -/
def getUser (s : Storage) (id : Nat) : Option User :=
  mapGet s.users id

/-- MemStorage.getUserByEmail (lines 398-402): `find` over the map values
comparing `toLowerCase()` of both emails. -/
def getUserByEmail (s : Storage) (email : String) : Option User :=
  (mapValues s.users).find? (fun u => lowerStr u.email = lowerStr email)

/-- MemStorage.getUserByUsername (lines 392-396): `find` over the map
values comparing `toLowerCase()` of both usernames. -/
def getUserByUsername (s : Storage) (username : String) : Option User :=
  (mapValues s.users).find? (fun u => lowerStr u.username = lowerStr username)

/-- Fields of `InsertUser` (insertUserSchema, schema segment lines
187-193). -/
structure InsertUser where
  email : String
  username : String
  password : String
  fullName : String
  userType : String
  deriving Repr, DecidableEq

/-- MemStorage.createUser (lines 404-410): take the next user id
(post-increment), stamp `createdAt` with the current time, insert the
record and return it. -/
def createUser (s : Storage) (input : InsertUser) (now : Nat) : Storage × User :=
  let user : User :=
    { id := s.nextUserId
      email := input.email
      username := input.username
      password := input.password
      fullName := input.fullName
      userType := input.userType
      createdAt := now }
  ({ s with users := mapSet s.users user.id user, nextUserId := s.nextUserId + 1 }, user)

/-- Fields of `InsertCompanyProfile` (insertCompanyProfileSchema, schema
segment lines 195-201). -/
structure InsertCompanyProfile where
  userId : Nat
  companyName : String
  industry : String
  website : String
  description : String
  deriving Repr, DecidableEq

/-- MemStorage.createCompanyProfile (lines 441-446): take the next
company-profile id (a counter of its own, post-increment), insert and
return the record; no `createdAt` stamp. -/
def createCompanyProfile (s : Storage) (input : InsertCompanyProfile) :
    Storage × CompanyProfile :=
  let profile : CompanyProfile :=
    { id := s.nextCompanyProfileId
      userId := input.userId
      companyName := input.companyName
      industry := input.industry
      website := input.website
      description := input.description }
  ({ s with companyProfiles := mapSet s.companyProfiles profile.id profile
            nextCompanyProfileId := s.nextCompanyProfileId + 1 }, profile)

/-- Fields of `InsertCreatorProfile` (insertCreatorProfileSchema, schema
segment lines 203-208). -/
structure InsertCreatorProfile where
  userId : Nat
  bio : String
  niche : String
  youtubeChannel : String
  deriving Repr, DecidableEq

/-- MemStorage.createCreatorProfile (lines 477-482): take the next
creator-profile id (a counter of its own, post-increment), insert and
return the record; no `createdAt` stamp. -/
def createCreatorProfile (s : Storage) (input : InsertCreatorProfile) :
    Storage × CreatorProfile :=
  let profile : CreatorProfile :=
    { id := s.nextCreatorProfileId
      userId := input.userId
      bio := input.bio
      niche := input.niche
      youtubeChannel := input.youtubeChannel }
  ({ s with creatorProfiles := mapSet s.creatorProfiles profile.id profile
            nextCreatorProfileId := s.nextCreatorProfileId + 1 }, profile)

/-- MemStorage.getCampaign (lines 503-505): `this.campaigns.get(id)`. -/
def getCampaign (s : Storage) (id : Nat) : Option Campaign :=
  mapGet s.campaigns id

/-- MemStorage.updateCampaign (lines 521-529): throws when the id is
absent (`none` here, which the routes' catch turns into a 500), otherwise
spreads the patch over the stored record and sets it back at the same
key, returning the updated record. -/
def updateCampaign (s : Storage) (id : Nat) (p : CampaignPatch) :
    Storage × Option Campaign :=
  match mapGet s.campaigns id with
  | none => (s, none)
  | some c =>
    let updated := mergeCampaign c p
    ({ s with campaigns := mapSet s.campaigns id updated }, some updated)

/-- MemStorage.deleteCampaign (lines 531-537): remove the map entry (the
source throws when the id is absent; the routes call this only behind the
existence check, where the throw path is unreachable). -/
def deleteCampaign (s : Storage) (id : Nat) : Storage :=
  { s with campaigns := mapDelete s.campaigns id }

/-- MemStorage.getAd (lines 540-542): `this.ads.get(id)`. -/
def getAd (s : Storage) (id : Nat) : Option Ad :=
  mapGet s.ads id

/-- Fields of `InsertAd` (insertAdSchema, schema segment lines 221-229). -/
structure InsertAd where
  userId : Nat
  campaignId : Option Nat
  title : String
  description : Option String
  filePath : String
  duration : Nat
  status : String
  deriving Repr, DecidableEq

/-- MemStorage.createAd (lines 556-562): take the next ad id
(post-increment), stamp `createdAt`, insert and return the record. -/
def createAd (s : Storage) (input : InsertAd) (now : Nat) : Storage × Ad :=
  let ad : Ad :=
    { id := s.nextAdId
      userId := input.userId
      campaignId := input.campaignId
      title := input.title
      description := input.description
      filePath := input.filePath
      duration := input.duration
      status := input.status
      createdAt := now }
  ({ s with ads := mapSet s.ads ad.id ad, nextAdId := s.nextAdId + 1 }, ad)

/-- MemStorage.updateAd (lines 564-572): throw (here `none`) when absent,
otherwise spread the patch over the stored record at the same key. -/
def updateAd (s : Storage) (id : Nat) (p : AdPatch) : Storage × Option Ad :=
  match mapGet s.ads id with
  | none => (s, none)
  | some a =>
    let updated := mergeAd a p
    ({ s with ads := mapSet s.ads id updated }, some updated)

/-- MemStorage.deleteAd (lines 574-580): remove the map entry (throws
when absent in the source; the routes call it only behind the existence
check). -/
def deleteAd (s : Storage) (id : Nat) : Storage :=
  { s with ads := mapDelete s.ads id }

/-- MemStorage.getVideo (lines 583-585): `this.videos.get(id)`. -/
def getVideo (s : Storage) (id : Nat) : Option Video :=
  mapGet s.videos id

/-- Fields of `InsertVideo` (insertVideoSchema, schema segment lines
231-243).  The schema also admits processedFilePath, thumbnailPath and
duration, carried here as ignored slots because `createVideo` overrides
them to undefined regardless. -/
structure InsertVideo where
  userId : Nat
  title : String
  description : Option String
  category : Option String
  rawFilePath : String
  status : String
  adPlacement : Option String
  adPreferences : String
  processedFilePath : Option String := none
  thumbnailPath : Option String := none
  duration : Option Nat := none
  deriving Repr, DecidableEq

/-- MemStorage.createVideo (lines 593-607): take the next video id
(post-increment), stamp `createdAt`, set `views` to 0 and explicitly
override `thumbnailPath`, `processedFilePath` and `duration` to
undefined, insert and return the record. -/
def createVideo (s : Storage) (input : InsertVideo) (now : Nat) : Storage × Video :=
  let video : Video :=
    { id := s.nextVideoId
      userId := input.userId
      title := input.title
      description := input.description
      category := input.category
      rawFilePath := input.rawFilePath
      processedFilePath := none
      thumbnailPath := none
      duration := none
      status := input.status
      adPlacement := input.adPlacement
      adPreferences := input.adPreferences
      views := 0
      createdAt := now }
  ({ s with videos := mapSet s.videos video.id video, nextVideoId := s.nextVideoId + 1 },
    video)

/-- MemStorage.updateVideo (lines 609-617): throw (here `none`) when
absent, otherwise spread the patch over the stored record at the same
key. -/
def updateVideo (s : Storage) (id : Nat) (p : VideoPatch) : Storage × Option Video :=
  match mapGet s.videos id with
  | none => (s, none)
  | some v =>
    let updated := mergeVideo v p
    ({ s with videos := mapSet s.videos id updated }, some updated)

/-- MemStorage.deleteVideo (lines 619-625): remove the map entry (throws
when absent in the source; the routes call it only behind the existence
check). -/
def deleteVideo (s : Storage) (id : Nat) : Storage :=
  { s with videos := mapDelete s.videos id }

/-- Outcome of a JSON route: an error response with a status code and a
`message` body, or a success response with a status code and a payload. -/
inductive HResult (α : Type) where
  | err (status : Nat) (message : String)
  | ok (status : Nat) (value : α)
  deriving Repr, DecidableEq

/-- Status code of a route outcome. -/
def HResult.statusCode {α : Type} : HResult α → Nat
  | .err s _ => s
  | .ok s _ => s

/-- Public user fields serialised in auth responses (routes.ts builds this
object literal by hand; note the absence of a password key). -/
def publicUserBody (u : User) : List (String × String) :=
  [("id", toString u.id), ("email", u.email), ("username", u.username),
   ("fullName", u.fullName), ("userType", u.userType)]

/-- Outcome of POST /api/auth/register. -/
inductive RegisterResult where
  | badRequest (message : String)
  | created (body : List (String × String))
  deriving Repr, DecidableEq

/-- POST /api/auth/register (routes.ts lines 79-137).  `hash` stands for
`bcrypt.hash(·, 10)`, an external library call.  The zod-validated body is
an `InsertUser` (the schema also checks `confirmPassword`, which the
handler never reads).  Duplicate email, then duplicate username, each
yield 400 before anything is written; otherwise the user is created with
the hashed password, then the profile matching the userType, and the 201
body holds only the public fields. -/
def registerHandler (hash : String → String) (s : Storage) (req : InsertUser)
    (now : Nat) : Storage × RegisterResult :=
  match getUserByEmail s req.email with
  | some _ => (s, .badRequest "Email already in use")
  | none =>
    match getUserByUsername s req.username with
    | some _ => (s, .badRequest "Username already taken")
    | none =>
      let hashedPassword := hash req.password
      let (s1, newUser) := createUser s { req with password := hashedPassword } now
      let s2 :=
        if req.userType = "company" then
          (createCompanyProfile s1
            { userId := newUser.id, companyName := req.fullName, industry := ""
              website := "", description := "" }).1
        else
          (createCreatorProfile s1
            { userId := newUser.id, bio := "", niche := "", youtubeChannel := "" }).1
      (s2, .created (publicUserBody newUser))

/-- Outcome of POST /api/auth/login: a 401 with a message, or a 200 that
also stores userId and userType in the session. -/
inductive LoginResult where
  | unauthorized (message : String)
  | ok (sess : Session) (body : List (String × String))
  deriving Repr, DecidableEq

/-- POST /api/auth/login (routes.ts lines 140-179).  `compare` stands for
`bcrypt.compare`, an external library call.  Unknown email and known email
with a failing password comparison take the two distinct early returns. -/
def loginHandler (compare : String → String → Bool) (s : Storage)
    (email password : String) : LoginResult :=
  match getUserByEmail s email with
  | none => .unauthorized "Invalid credentials"
  | some user =>
    if compare password user.password then
      .ok { userId := user.id, userType := user.userType } (publicUserBody user)
    else
      .unauthorized "Invalid credentials"

/-- GET /api/campaigns/:id (routes.ts lines 282-305). -/
def getCampaignHandler (s : Storage) (sess : Option Session) (campaignId : Nat) :
    HResult Campaign :=
  match sess with
  | none => .err 401 "Not authenticated"
  | some sess =>
    match getCampaign s campaignId with
    | none => .err 404 "Campaign not found"
    | some campaign =>
      if campaign.userId ≠ sess.userId then
        .err 403 "Not authorized to access this campaign"
      else
        .ok 200 campaign

/-- PATCH /api/campaigns/:id (routes.ts lines 308-332).  The raw request
body is handed to the storage update; a storage failure is caught and
mapped to 500. -/
def patchCampaignHandler (s : Storage) (sess : Option Session) (campaignId : Nat)
    (body : CampaignPatch) : Storage × HResult Campaign :=
  match sess with
  | none => (s, .err 401 "Not authenticated")
  | some sess =>
    match getCampaign s campaignId with
    | none => (s, .err 404 "Campaign not found")
    | some campaign =>
      if campaign.userId ≠ sess.userId then
        (s, .err 403 "Not authorized to update this campaign")
      else
        match updateCampaign s campaignId body with
        | (s2, some updated) => (s2, .ok 200 updated)
        | (s2, none) => (s2, .err 500 "Failed to update campaign")

/-- DELETE /api/campaigns/:id (routes.ts lines 335-359). -/
def deleteCampaignHandler (s : Storage) (sess : Option Session) (campaignId : Nat) :
    Storage × HResult String :=
  match sess with
  | none => (s, .err 401 "Not authenticated")
  | some sess =>
    match getCampaign s campaignId with
    | none => (s, .err 404 "Campaign not found")
    | some campaign =>
      if campaign.userId ≠ sess.userId then
        (s, .err 403 "Not authorized to delete this campaign")
      else
        (deleteCampaign s campaignId, .ok 200 "Campaign deleted successfully")

/-- GET /api/ads/:id (routes.ts lines 410-433). -/
def getAdHandler (s : Storage) (sess : Option Session) (adId : Nat) : HResult Ad :=
  match sess with
  | none => .err 401 "Not authenticated"
  | some sess =>
    match getAd s adId with
    | none => .err 404 "Ad not found"
    | some ad =>
      if ad.userId ≠ sess.userId then
        .err 403 "Not authorized to access this ad"
      else
        .ok 200 ad

/-- PATCH /api/ads/:id (routes.ts lines 436-460). -/
def patchAdHandler (s : Storage) (sess : Option Session) (adId : Nat)
    (body : AdPatch) : Storage × HResult Ad :=
  match sess with
  | none => (s, .err 401 "Not authenticated")
  | some sess =>
    match getAd s adId with
    | none => (s, .err 404 "Ad not found")
    | some ad =>
      if ad.userId ≠ sess.userId then
        (s, .err 403 "Not authorized to update this ad")
      else
        match updateAd s adId body with
        | (s2, some updated) => (s2, .ok 200 updated)
        | (s2, none) => (s2, .err 500 "Failed to update ad")

/-- Disk state: the set of file paths currently present, as a list. -/
def Disk := List String

/-- An `fs.unlink(path).catch(log)` call: the entry is gone afterwards
whether or not it existed, and a failure (missing file) is swallowed. -/
def unlinkCatch (disk : List String) (p : String) : List String :=
  disk.filter (fun q => q ≠ p)

/-- DELETE /api/ads/:id (routes.ts lines 463-494).  After the three
guards, the ad file is unlinked when `ad.filePath` is truthy (failures
swallowed), then the record is deleted and 200 returned. -/
def deleteAdHandler (s : Storage) (disk : List String) (sess : Option Session)
    (adId : Nat) : Storage × List String × HResult String :=
  match sess with
  | none => (s, disk, .err 401 "Not authenticated")
  | some sess =>
    match getAd s adId with
    | none => (s, disk, .err 404 "Ad not found")
    | some ad =>
      if ad.userId ≠ sess.userId then
        (s, disk, .err 403 "Not authorized to delete this ad")
      else
        let disk2 := if ad.filePath ≠ "" then unlinkCatch disk ad.filePath else disk
        (deleteAd s adId, disk2, .ok 200 "Ad deleted successfully")

/-- GET /api/videos/:id (routes.ts lines 565-588). -/
def getVideoHandler (s : Storage) (sess : Option Session) (videoId : Nat) :
    HResult Video :=
  match sess with
  | none => .err 401 "Not authenticated"
  | some sess =>
    match getVideo s videoId with
    | none => .err 404 "Video not found"
    | some video =>
      if video.userId ≠ sess.userId then
        .err 403 "Not authorized to access this video"
      else
        .ok 200 video

/-- PATCH /api/videos/:id (routes.ts lines 627-651). -/
def patchVideoHandler (s : Storage) (sess : Option Session) (videoId : Nat)
    (body : VideoPatch) : Storage × HResult Video :=
  match sess with
  | none => (s, .err 401 "Not authenticated")
  | some sess =>
    match getVideo s videoId with
    | none => (s, .err 404 "Video not found")
    | some video =>
      if video.userId ≠ sess.userId then
        (s, .err 403 "Not authorized to update this video")
      else
        match updateVideo s videoId body with
        | (s2, some updated) => (s2, .ok 200 updated)
        | (s2, none) => (s2, .err 500 "Failed to update video")

/-- JavaScript truthiness of an optional string field: null and the empty
string are falsy. -/
def strTruthy (o : Option String) : Bool :=
  match o with
  | none => false
  | some p => p ≠ ""

/-- Unlink guarded by a truthiness check on an optional path, as in the
`if (video.processedFilePath)` blocks. -/
def unlinkOpt (disk : List String) (o : Option String) : List String :=
  match o with
  | none => disk
  | some p => if p ≠ "" then unlinkCatch disk p else disk

/-- DELETE /api/videos/:id (routes.ts lines 654-697).  After the guards,
the raw, processed and thumbnail files are each unlinked when truthy
(failures swallowed), then the record is deleted and 200 returned. -/
def deleteVideoHandler (s : Storage) (disk : List String) (sess : Option Session)
    (videoId : Nat) : Storage × List String × HResult String :=
  match sess with
  | none => (s, disk, .err 401 "Not authenticated")
  | some sess =>
    match getVideo s videoId with
    | none => (s, disk, .err 404 "Video not found")
    | some video =>
      if video.userId ≠ sess.userId then
        (s, disk, .err 403 "Not authorized to delete this video")
      else
        let disk2 := if video.rawFilePath ≠ "" then unlinkCatch disk video.rawFilePath
          else disk
        let disk3 := unlinkOpt disk2 video.processedFilePath
        let disk4 := unlinkOpt disk3 video.thumbnailPath
        (deleteVideo s videoId, disk4, .ok 200 "Video deleted successfully")

/-- A multipart file as multer presents it to the handler: the stored
path, the byte size and the declared MIME type. -/
structure UploadedFile where
  path : String
  size : Nat
  mimetype : String
  deriving Repr, DecidableEq

/-- The single multer `limits.fileSize` value (routes.ts lines 41-54):
2GB, configured once on the one `upload` instance that serves both the ad
and the video upload routes. -/
def maxFileSize : Nat := 2 * 1024 * 1024 * 1024

/-- The multer middleware stage shared by both upload routes: the
`fileFilter` rejects any file whose MIME type does not start with
"video/", and the `limits.fileSize` bound rejects any file larger than
2GB.  Returns the rejection reason, or none when the file is accepted. -/
def multerReject (f : UploadedFile) : Option String :=
  if ¬ strStartsWith f.mimetype "video/" then some "Only video files are allowed"
  else if maxFileSize < f.size then some "File too large"
  else none

/-- Outcome of an upload route: a rejection raised by the multer
middleware before the handler body runs, an error response from the
handler, or a 201 with the created record. -/
inductive UploadOutcome (α : Type) where
  | rejected (reason : String)
  | resp (status : Nat) (message : String)
  | created (value : α)
  deriving Repr, DecidableEq

/-- Whether an upload outcome is a rejection or error (no record created
and no 201). -/
def UploadOutcome.isFailure {α : Type} : UploadOutcome α → Bool
  | .rejected _ => true
  | .resp _ _ => true
  | .created _ => false

/-- Fields the client may put in the multipart body of an ad upload.  The
handler destructures only `title`, `description` and `campaignId`; the
remaining slots model extra keys a client could send, which the handler
never reads. -/
structure AdUploadBody where
  title : String
  description : Option String
  campaignId : Option Nat
  duration : Option Nat := none
  status : Option String := none
  userId : Option Nat := none
  deriving Repr, DecidableEq

/-- POST /api/ads/upload (routes.ts lines 379-407), including the
`upload.single` multer stage that runs first.  When the file passes the
filter and size limit, the handler checks the session, then 400s when no
file arrived, then creates the ad with the session's userId, the stored
file path, a hardcoded duration of 30 and status "pending". -/
def adUploadRoute (s : Storage) (sess : Option Session) (file : Option UploadedFile)
    (body : AdUploadBody) (now : Nat) : Storage × UploadOutcome Ad :=
  match file with
  | some f =>
    match multerReject f with
    | some reason => (s, .rejected reason)
    | none =>
      match sess with
      | none => (s, .resp 401 "Not authenticated")
      | some sess =>
        let (s2, ad) := createAd s
          { userId := sess.userId
            campaignId := body.campaignId
            title := body.title
            description := body.description
            filePath := f.path
            duration := 30
            status := "pending" } now
        (s2, .created ad)
  | none =>
    match sess with
    | none => (s, .resp 401 "Not authenticated")
    | some _ => (s, .resp 400 "No file uploaded")

/-- Fields the client may put in the multipart body of a video upload. -/
structure VideoUploadBody where
  title : String
  description : Option String
  category : Option String
  adPlacement : Option String
  adPreferences : Option String
  deriving Repr, DecidableEq

/-- POST /api/videos/upload (routes.ts lines 514-562), including the
shared multer stage.  The handler creates the video with status
"processing" and the stored file path, then schedules the 10-second
processing timer (modelled separately as `videoProcessingTimer`).  The
`adPreferences` form field is parsed from JSON when truthy and defaults
to the empty object; the JSON string is carried verbatim here. -/
def videoUploadRoute (s : Storage) (sess : Option Session)
    (file : Option UploadedFile) (body : VideoUploadBody) (now : Nat) :
    Storage × UploadOutcome Video :=
  match file with
  | some f =>
    match multerReject f with
    | some reason => (s, .rejected reason)
    | none =>
      match sess with
      | none => (s, .resp 401 "Not authenticated")
      | some sess =>
        let (s2, video) := createVideo s
          { userId := sess.userId
            title := body.title
            description := body.description
            category := body.category
            rawFilePath := f.path
            status := "processing"
            adPlacement := body.adPlacement
            adPreferences := if strTruthy body.adPreferences then
                body.adPreferences.getD ""
              else "\x7b\x7d" } now
        (s2, .created video)
  | none =>
    match sess with
    | none => (s, .resp 401 "Not authenticated")
    | some _ => (s, .resp 400 "No file uploaded")

/-- JavaScript `a || b` on a nullable string: null and the empty string
fall through to the right operand. -/
def jsOr (o : Option String) (d : String) : String :=
  match o with
  | none => d
  | some p => if p = "" then d else p

/-- GET /api/videos/:id/download (routes.ts lines 591-624).  After the
three guards, a video whose status is neither "ready" nor "published"
yields 400; otherwise 200 with the message and the url
`video.processedFilePath || video.rawFilePath`.  The storage state is
returned unchanged alongside the outcome. -/
def downloadVideoHandler (s : Storage) (sess : Option Session) (videoId : Nat) :
    Storage × HResult (String × String) :=
  match sess with
  | none => (s, .err 401 "Not authenticated")
  | some sess =>
    match getVideo s videoId with
    | none => (s, .err 404 "Video not found")
    | some video =>
      if video.userId ≠ sess.userId then
        (s, .err 403 "Not authorized to download this video")
      else if video.status ≠ "ready" ∧ video.status ≠ "published" then
        (s, .err 400 "Video is not ready for download")
      else
        (s, .ok 200 ("Download started", jsOr video.processedFilePath video.rawFilePath))

theorem mapGet_mapSet_self {β : Type} (m : List (Nat × β)) (id : Nat) (v : β) :
    mapGet (mapSet m id v) id = some v := by
  induction m with
  | nil => simp [mapSet, mapGet]
  | cons e rest ih =>
    obtain ⟨k, w⟩ := e
    by_cases h : k = id
    · simp [mapSet, mapGet, h]
    · simp [mapSet, mapGet, h, ih]

theorem mapGet_mapDelete_self {β : Type} (m : List (Nat × β)) (id : Nat) :
    mapGet (mapDelete m id) id = none := by
  induction m with
  | nil => simp [mapDelete, mapGet]
  | cons e rest ih =>
    obtain ⟨k, w⟩ := e
    by_cases h : k = id
    · simp [mapDelete, h, ih]
    · simp [mapDelete, mapGet, h, ih]

theorem mem_mapValues_mapSet {β : Type} (m : List (Nat × β)) (id : Nat) (v : β) :
    v ∈ mapValues (mapSet m id v) := by
  induction m with
  | nil => simp [mapSet, mapValues]
  | cons e rest ih =>
    obtain ⟨k, w⟩ := e
    by_cases h : k = id
    · simp [mapSet, mapValues, h]
    · simp only [mapSet, mapValues, h, if_false, List.map_cons, List.mem_cons, ite_false]
      exact Or.inr (by simpa [mapValues] using ih)

/-- Demo fixture: an individual user with id 7. -/
def demoUser : User :=
  { id := 7, email := "a@x.com", username := "a", password := "HASHED.a"
    fullName := "A", userType := "individual", createdAt := 0 }

/-- Demo fixture: the session the login handler would store for `demoUser`. -/
def demoSession : Session :=
  { userId := 7, userType := "individual" }

/-- Demo fixture: a session of a different user. -/
def intruderSession : Session :=
  { userId := 8, userType := "individual" }

/-- Demo fixture: a campaign owned by user 7. -/
def demoCampaign : Campaign :=
  { id := 1, userId := 7, name := "Launch", status := "active", budget := 1000
    spent := 0, startDate := 0, endDate := none, targetAudience := none, createdAt := 0 }

/-- Demo fixture: an ad owned by user 7. -/
def demoAd : Ad :=
  { id := 1, userId := 7, campaignId := some 1, title := "Ad1", description := none
    filePath := "uploads/ads/adVideo-1.mp4", duration := 30, status := "pending"
    createdAt := 0 }

/-- Demo fixture: a video owned by user 7. -/
def demoVideo : Video :=
  { id := 1, userId := 7, title := "V1", description := none, category := none
    rawFilePath := "uploads/videos/file-1.mp4", processedFilePath := none
    thumbnailPath := none, duration := none, status := "processing"
    adPlacement := some "pre-roll", adPreferences := "\x7b\x7d", views := 0
    createdAt := 0 }

/-- Demo fixture: storage holding one user, campaign, ad and video. -/
def demoStore : Storage :=
  { users := [(7, demoUser)], companyProfiles := [], creatorProfiles := []
    campaigns := [(1, demoCampaign)], ads := [(1, demoAd)], videos := [(1, demoVideo)]
    videoAds := [], nextUserId := 8, nextCompanyProfileId := 1
    nextCreatorProfileId := 1, nextCampaignId := 2, nextAdId := 2
    nextVideoId := 2, nextVideoAdId := 1 }

/-- C3: for every login request, the response when no user has the given
email and the response when the user exists but the password comparison
fails are the identical 401 with message "Invalid credentials" — no
enumeration signal distinguishes the two cases. -/
theorem login_no_enumeration_signal (compare : String → String → Bool)
    (s1 s2 : Storage) (e1 p1 e2 p2 : String) (u : User)
    (h1 : getUserByEmail s1 e1 = none)
    (h2 : getUserByEmail s2 e2 = some u)
    (h3 : compare p2 u.password = false) :
    loginHandler compare s1 e1 p1 = LoginResult.unauthorized "Invalid credentials" ∧
    loginHandler compare s2 e2 p2 = LoginResult.unauthorized "Invalid credentials" ∧
    loginHandler compare s1 e1 p1 = loginHandler compare s2 e2 p2 := by
  refine ⟨?_, ?_, ?_⟩ <;> simp [loginHandler, h1, h2, h3]

/-- Witness for C3: unknown email "b@x.com" and wrong password for the
known email "a@x.com" produce the same 401 response. -/
theorem login_no_enumeration_signal_witness :
    loginHandler (fun a b => a == b) demoStore "b@x.com" "pw" =
      LoginResult.unauthorized "Invalid credentials" ∧
    loginHandler (fun a b => a == b) demoStore "a@x.com" "wrong" =
      LoginResult.unauthorized "Invalid credentials" ∧
    loginHandler (fun a b => a == b) demoStore "b@x.com" "pw" =
      loginHandler (fun a b => a == b) demoStore "a@x.com" "wrong" :=
  login_no_enumeration_signal (fun a b => a == b) demoStore demoStore
    "b@x.com" "pw" "a@x.com" "wrong" demoUser (by decide) (by decide) (by decide)

/-- C10 (amended): for every GET /api/videos/:id/download by the owner of
an existing video, the response is 400 "Video is not ready for download"
iff the status is neither "ready" nor "published"; otherwise it is 200
with url equal to processedFilePath when that is non-null and non-empty
and rawFilePath otherwise, and the storage state is unchanged. -/
theorem download_ready_gate (s : Storage) (sess : Session) (videoId : Nat)
    (v : Video) (hv : getVideo s videoId = some v)
    (hown : v.userId = sess.userId) :
    ((downloadVideoHandler s (some sess) videoId).2 =
        HResult.err 400 "Video is not ready for download" ↔
      v.status ≠ "ready" ∧ v.status ≠ "published") ∧
    (downloadVideoHandler s (some sess) videoId).1 = s ∧
    (v.status = "ready" ∨ v.status = "published" →
      ∃ url, (downloadVideoHandler s (some sess) videoId).2 =
          HResult.ok 200 ("Download started", url) ∧
        (∀ p, v.processedFilePath = some p → p ≠ "" → url = p) ∧
        (v.processedFilePath = none ∨ v.processedFilePath = some "" →
          url = v.rawFilePath)) := by
  by_cases hr : v.status ≠ "ready" ∧ v.status ≠ "published"
  · refine ⟨?_, ?_, ?_⟩
    · simp [downloadVideoHandler, hv, hown, hr]
    · simp [downloadVideoHandler, hv, hown, hr]
    · intro hready
      rcases hready with h | h <;> simp [h] at hr
  · refine ⟨?_, ?_, ?_⟩
    · simp [downloadVideoHandler, hv, hown, hr]
    · simp [downloadVideoHandler, hv, hown, hr]
    · intro _
      refine ⟨jsOr v.processedFilePath v.rawFilePath, ?_, ?_, ?_⟩
      · simp [downloadVideoHandler, hv, hown, hr]
      · intro p hp hpne
        simp [jsOr, hp, hpne]
      · intro hcase
        rcases hcase with h | h <;> simp [jsOr, h]

/-- Witness for C10: a "processing" video yields the 400, and a "ready"
video with a non-empty processed path yields 200 with that path. -/
theorem download_ready_gate_witness :
    ((downloadVideoHandler demoStore (some demoSession) 1).2 =
        HResult.err 400 "Video is not ready for download" ↔
      demoVideo.status ≠ "ready" ∧ demoVideo.status ≠ "published") ∧
    (downloadVideoHandler demoStore (some demoSession) 1).1 = demoStore :=
  ⟨(download_ready_gate demoStore demoSession 1 demoVideo (by decide) (by decide)).1,
   (download_ready_gate demoStore demoSession 1 demoVideo (by decide) (by decide)).2.1⟩

/-- Demo fixture: a "ready" video whose processedFilePath is the empty
string (non-null), reachable because PATCH /api/videos/:id merges any
client-supplied field unvalidated. -/
def hollowVideo : Video :=
  { id := 1, userId := 7, title := "V1", description := none, category := none
    rawFilePath := "raw.mp4", processedFilePath := some ""
    thumbnailPath := none, duration := none, status := "ready"
    adPlacement := none, adPreferences := "\x7b\x7d", views := 0, createdAt := 0 }

/-- Demo fixture: storage holding `hollowVideo`. -/
def hollowStore : Storage :=
  { users := [(7, demoUser)], companyProfiles := [], creatorProfiles := []
    campaigns := [], ads := [], videos := [(1, hollowVideo)]
    videoAds := [], nextUserId := 8, nextCompanyProfileId := 1
    nextCreatorProfileId := 1, nextCampaignId := 1, nextAdId := 1
    nextVideoId := 2, nextVideoAdId := 1 }

/-- Counterexample for C10 as stated: for the owner's download of a ready
video whose processedFilePath is non-null but empty, the code answers 200
with url "raw.mp4" (the rawFilePath) rather than the non-null
processedFilePath value "", because the JavaScript `||` treats the empty
string as falsy. -/
theorem download_url_empty_processed_counterexample :
    getVideo hollowStore 1 = some hollowVideo ∧
    hollowVideo.processedFilePath = some "" ∧
    hollowVideo.status = "ready" ∧
    downloadVideoHandler hollowStore (some demoSession) 1 =
      (hollowStore, HResult.ok 200 ("Download started", "raw.mp4")) ∧
    ("raw.mp4" : String) ≠ "" := by decide

/-- Demo fixture: multipart body of an ad upload. -/
def bigAdBody : AdUploadBody :=
  { title := "Big ad", description := none, campaignId := none }

/-- Demo fixture: multipart body of a video upload. -/
def demoVideoBody : VideoUploadBody :=
  { title := "V2", description := none, category := none, adPlacement := none
    adPreferences := none }

/-- Demo fixture: a 150MB video-typed upload file. -/
def bigAdFile : UploadedFile :=
  { path := "uploads/ads/adVideo-150.mp4", size := 150 * 1024 * 1024
    mimetype := "video/mp4" }

/-- Demo fixture: a 3GB video-typed upload file. -/
def hugeFile : UploadedFile :=
  { path := "uploads/ads/adVideo-huge.mp4", size := 3 * 1024 * 1024 * 1024
    mimetype := "video/mp4" }

/-- C1 (amended): both upload routes share the single multer instance
whose fileSize limit is 2GB, so for every authenticated upload of a
video-typed file larger than 2GB — ad or video alike — the request is
rejected with no record created, while any such file of at most 2GB
passes the middleware (in particular an ad between 100MB and 2GB is
accepted, there is no separate 100MB ad ceiling). -/
theorem upload_size_ceiling_2GB (s : Storage) (sess : Session) (f : UploadedFile)
    (ab : AdUploadBody) (vb : VideoUploadBody) (now : Nat)
    (hm : strStartsWith f.mimetype "video/" = true) :
    (maxFileSize < f.size →
      adUploadRoute s (some sess) (some f) ab now =
        (s, UploadOutcome.rejected "File too large") ∧
      videoUploadRoute s (some sess) (some f) vb now =
        (s, UploadOutcome.rejected "File too large")) ∧
    (f.size ≤ maxFileSize →
      ∃ s2 ad, adUploadRoute s (some sess) (some f) ab now =
        (s2, UploadOutcome.created ad)) := by
  constructor
  · intro hs
    have hrej : multerReject f = some "File too large" := by
      simp [multerReject, hm, hs]
    constructor <;> simp [adUploadRoute, videoUploadRoute, hrej]
  · intro hs
    have hacc : multerReject f = none := by
      simp [multerReject, hm, Nat.not_lt.mpr hs]
    simp only [adUploadRoute, hacc, createAd]
    exact ⟨_, _, rfl⟩

/-- Witness for C1 (amended): a 3GB file is rejected on both routes, and
the 150MB ad file passes the middleware. -/
theorem upload_size_ceiling_2GB_witness :
    (adUploadRoute demoStore (some demoSession) (some hugeFile) bigAdBody 9 =
      (demoStore, UploadOutcome.rejected "File too large") ∧
    videoUploadRoute demoStore (some demoSession) (some hugeFile) demoVideoBody 9 =
      (demoStore, UploadOutcome.rejected "File too large")) ∧
    (∃ s2 ad, adUploadRoute demoStore (some demoSession) (some bigAdFile) bigAdBody 9 =
      (s2, UploadOutcome.created ad)) :=
  ⟨(upload_size_ceiling_2GB demoStore demoSession hugeFile bigAdBody demoVideoBody 9
      (by decide)).1 (by decide),
   (upload_size_ceiling_2GB demoStore demoSession bigAdFile bigAdBody demoVideoBody 9
      (by decide)).2 (by decide)⟩

/-- Counterexample for C1 as stated: an authenticated ad upload of a
150MB file (well over the claimed 100MB ceiling) is not rejected — it
returns a created Ad and the record is persisted in storage. -/
theorem ad_over_100MB_accepted_counterexample :
    100 * 1024 * 1024 < bigAdFile.size ∧
    (adUploadRoute demoStore (some demoSession) (some bigAdFile) bigAdBody 9).2 =
      UploadOutcome.created
        { id := 2, userId := 7, campaignId := none, title := "Big ad"
          description := none, filePath := "uploads/ads/adVideo-150.mp4"
          duration := 30, status := "pending", createdAt := 9 } ∧
    getAd (adUploadRoute demoStore (some demoSession) (some bigAdFile) bigAdBody 9).1 2 =
      some { id := 2, userId := 7, campaignId := none, title := "Big ad"
             description := none, filePath := "uploads/ads/adVideo-150.mp4"
             duration := 30, status := "pending", createdAt := 9 } := by decide

/-- C8: every successful POST /api/ads/upload creates an Ad with duration
30 and status "pending" regardless of any duration/status/userId the
client put in the body (the handler reads only title, description and
campaignId), and its userId is the session's. -/
theorem ad_upload_hardcoded_fields (s : Storage) (sess : Session) (f : UploadedFile)
    (body : AdUploadBody) (now : Nat) (hacc : multerReject f = none) :
    ∃ s2 ad, adUploadRoute s (some sess) (some f) body now =
        (s2, UploadOutcome.created ad) ∧
      ad.duration = 30 ∧ ad.status = "pending" ∧ ad.userId = sess.userId ∧
      adUploadRoute s (some sess) (some f) body now =
        adUploadRoute s (some sess) (some f)
          { title := body.title, description := body.description
            campaignId := body.campaignId, duration := none, status := none
            userId := none } now := by
  simp only [adUploadRoute, hacc, createAd]
  exact ⟨_, _, rfl, by trivial, by trivial, by trivial, by trivial⟩

/-- Witness for C8: a concrete upload whose body smuggles duration 999,
status "approved" and userId 42 still yields duration 30, status
"pending" and the session's userId 7. -/
theorem ad_upload_hardcoded_fields_witness :
    ∃ s2 ad, adUploadRoute demoStore (some demoSession) (some bigAdFile)
        { title := "Big ad", description := none, campaignId := none
          duration := some 999, status := some "approved", userId := some 42 } 9 =
        (s2, UploadOutcome.created ad) ∧
      ad.duration = 30 ∧ ad.status = "pending" ∧ ad.userId = demoSession.userId ∧
      adUploadRoute demoStore (some demoSession) (some bigAdFile)
        { title := "Big ad", description := none, campaignId := none
          duration := some 999, status := some "approved", userId := some 42 } 9 =
      adUploadRoute demoStore (some demoSession) (some bigAdFile)
        { title := "Big ad", description := none, campaignId := none
          duration := none, status := none, userId := none } 9 :=
  ad_upload_hardcoded_fields demoStore demoSession bigAdFile
    { title := "Big ad", description := none, campaignId := none
      duration := some 999, status := some "approved", userId := some 42 } 9
    (by decide)

/-- C2: on every by-id entity route (GET/PATCH/DELETE for campaigns, ads
and videos) the checks run in the order authentication, existence,
ownership: with no session the answer is 401 whatever the storage holds;
with a session but no such entity it is 404; with a session and an entity
owned by someone else it is 403; and only when all three checks pass does
the handler proceed with a 200. -/
theorem byId_route_check_order :
    (∀ (s : Storage) (id : Nat) (cb : CampaignPatch),
      (getCampaignHandler s none id).statusCode = 401 ∧
      ((patchCampaignHandler s none id cb).2).statusCode = 401 ∧
      ((deleteCampaignHandler s none id).2).statusCode = 401) ∧
    (∀ (s : Storage) (d : List String) (id : Nat) (ab : AdPatch),
      (getAdHandler s none id).statusCode = 401 ∧
      ((patchAdHandler s none id ab).2).statusCode = 401 ∧
      ((deleteAdHandler s d none id).2.2).statusCode = 401) ∧
    (∀ (s : Storage) (d : List String) (id : Nat) (vb : VideoPatch),
      (getVideoHandler s none id).statusCode = 401 ∧
      ((patchVideoHandler s none id vb).2).statusCode = 401 ∧
      ((deleteVideoHandler s d none id).2.2).statusCode = 401) ∧
    (∀ (s : Storage) (sess : Session) (d : List String) (id : Nat)
        (cb : CampaignPatch) (ab : AdPatch) (vb : VideoPatch),
      (getCampaign s id = none →
        (getCampaignHandler s (some sess) id).statusCode = 404 ∧
        ((patchCampaignHandler s (some sess) id cb).2).statusCode = 404 ∧
        ((deleteCampaignHandler s (some sess) id).2).statusCode = 404) ∧
      (getAd s id = none →
        (getAdHandler s (some sess) id).statusCode = 404 ∧
        ((patchAdHandler s (some sess) id ab).2).statusCode = 404 ∧
        ((deleteAdHandler s d (some sess) id).2.2).statusCode = 404) ∧
      (getVideo s id = none →
        (getVideoHandler s (some sess) id).statusCode = 404 ∧
        ((patchVideoHandler s (some sess) id vb).2).statusCode = 404 ∧
        ((deleteVideoHandler s d (some sess) id).2.2).statusCode = 404)) ∧
    (∀ (s : Storage) (sess : Session) (d : List String) (id : Nat)
        (cb : CampaignPatch) (ab : AdPatch) (vb : VideoPatch),
      (∀ c, getCampaign s id = some c → c.userId ≠ sess.userId →
        (getCampaignHandler s (some sess) id).statusCode = 403 ∧
        ((patchCampaignHandler s (some sess) id cb).2).statusCode = 403 ∧
        ((deleteCampaignHandler s (some sess) id).2).statusCode = 403) ∧
      (∀ a, getAd s id = some a → a.userId ≠ sess.userId →
        (getAdHandler s (some sess) id).statusCode = 403 ∧
        ((patchAdHandler s (some sess) id ab).2).statusCode = 403 ∧
        ((deleteAdHandler s d (some sess) id).2.2).statusCode = 403) ∧
      (∀ v, getVideo s id = some v → v.userId ≠ sess.userId →
        (getVideoHandler s (some sess) id).statusCode = 403 ∧
        ((patchVideoHandler s (some sess) id vb).2).statusCode = 403 ∧
        ((deleteVideoHandler s d (some sess) id).2.2).statusCode = 403)) ∧
    (∀ (s : Storage) (sess : Session) (d : List String) (id : Nat)
        (cb : CampaignPatch) (ab : AdPatch) (vb : VideoPatch),
      (∀ c, getCampaign s id = some c → c.userId = sess.userId →
        (getCampaignHandler s (some sess) id).statusCode = 200 ∧
        ((patchCampaignHandler s (some sess) id cb).2).statusCode = 200 ∧
        ((deleteCampaignHandler s (some sess) id).2).statusCode = 200) ∧
      (∀ a, getAd s id = some a → a.userId = sess.userId →
        (getAdHandler s (some sess) id).statusCode = 200 ∧
        ((patchAdHandler s (some sess) id ab).2).statusCode = 200 ∧
        ((deleteAdHandler s d (some sess) id).2.2).statusCode = 200) ∧
      (∀ v, getVideo s id = some v → v.userId = sess.userId →
        (getVideoHandler s (some sess) id).statusCode = 200 ∧
        ((patchVideoHandler s (some sess) id vb).2).statusCode = 200 ∧
        ((deleteVideoHandler s d (some sess) id).2.2).statusCode = 200)) := by
  refine ⟨?_, ?_, ?_, ?_, ?_, ?_⟩
  · exact fun s id cb => ⟨rfl, rfl, rfl⟩
  · exact fun s d id ab => ⟨rfl, rfl, rfl⟩
  · exact fun s d id vb => ⟨rfl, rfl, rfl⟩
  · intro s sess d id cb ab vb
    refine ⟨fun hc => ?_, fun ha => ?_, fun hv => ?_⟩
    · refine ⟨?_, ?_, ?_⟩ <;>
        simp [getCampaignHandler, patchCampaignHandler, deleteCampaignHandler,
          hc, HResult.statusCode]
    · refine ⟨?_, ?_, ?_⟩ <;>
        simp [getAdHandler, patchAdHandler, deleteAdHandler, ha, HResult.statusCode]
    · refine ⟨?_, ?_, ?_⟩ <;>
        simp [getVideoHandler, patchVideoHandler, deleteVideoHandler, hv,
          HResult.statusCode]
  · intro s sess d id cb ab vb
    refine ⟨fun c hc hu => ?_, fun a ha hu => ?_, fun v hv hu => ?_⟩
    · refine ⟨?_, ?_, ?_⟩ <;>
        simp [getCampaignHandler, patchCampaignHandler, deleteCampaignHandler,
          hc, hu, HResult.statusCode]
    · refine ⟨?_, ?_, ?_⟩ <;>
        simp [getAdHandler, patchAdHandler, deleteAdHandler, ha, hu,
          HResult.statusCode]
    · refine ⟨?_, ?_, ?_⟩ <;>
        simp [getVideoHandler, patchVideoHandler, deleteVideoHandler, hv, hu,
          HResult.statusCode]
  · intro s sess d id cb ab vb
    refine ⟨fun c hc hu => ?_, fun a ha hu => ?_, fun v hv hu => ?_⟩
    · have hm : mapGet s.campaigns id = some c := hc
      refine ⟨?_, ?_, ?_⟩ <;>
        simp [getCampaignHandler, patchCampaignHandler, deleteCampaignHandler,
          updateCampaign, getCampaign, hm, hu, HResult.statusCode]
    · have hm : mapGet s.ads id = some a := ha
      refine ⟨?_, ?_, ?_⟩ <;>
        simp [getAdHandler, patchAdHandler, deleteAdHandler, updateAd, getAd,
          hm, hu, HResult.statusCode]
    · have hm : mapGet s.videos id = some v := hv
      refine ⟨?_, ?_, ?_⟩ <;>
        simp [getVideoHandler, patchVideoHandler, deleteVideoHandler, updateVideo,
          getVideo, hm, hu, HResult.statusCode]

/-- Witness for C2: the four outcomes at concrete inputs — no session
gives 401, a missing campaign gives 404, another user's ad gives 403, and
the owner's video is served with 200. -/
theorem byId_route_check_order_witness :
    (getCampaignHandler demoStore none 1).statusCode = 401 ∧
    (getCampaignHandler demoStore (some demoSession) 99).statusCode = 404 ∧
    (getAdHandler demoStore (some intruderSession) 1).statusCode = 403 ∧
    (getVideoHandler demoStore (some demoSession) 1).statusCode = 200 :=
  ⟨(byId_route_check_order.1 demoStore 1 {}).1,
   ((byId_route_check_order.2.2.2.1 demoStore demoSession [] 99 {} {} {}).1
      (by decide)).1,
   ((byId_route_check_order.2.2.2.2.1 demoStore intruderSession [] 1 {} {} {}).2.1
      demoAd (by decide) (by decide)).1,
   ((byId_route_check_order.2.2.2.2.2 demoStore demoSession [] 1 {} {} {}).2.2
      demoVideo (by decide) (by decide)).1⟩

/-- C4: every registration whose email or username is already taken by a
stored user — compared case-insensitively — answers 400 and leaves the
storage unchanged: no User and no profile is created. -/
theorem register_duplicate_rejected (hash : String → String) (s : Storage)
    (req : InsertUser) (now : Nat)
    (hdup : (∃ u ∈ mapValues s.users, lowerStr u.email = lowerStr req.email) ∨
            (∃ u ∈ mapValues s.users, lowerStr u.username = lowerStr req.username)) :
    (registerHandler hash s req now).1 = s ∧
    ((registerHandler hash s req now).2 =
        RegisterResult.badRequest "Email already in use" ∨
     (registerHandler hash s req now).2 =
        RegisterResult.badRequest "Username already taken") := by
  cases hfe : getUserByEmail s req.email with
  | some u => constructor <;> simp [registerHandler, hfe]
  | none =>
    have hfe0 := hfe
    simp only [getUserByEmail] at hfe0
    rcases hdup with ⟨u, hmem, hu⟩ | ⟨u, hmem, hu⟩
    · exfalso
      have h2 := List.find?_eq_none.mp hfe0 u hmem
      simp [hu] at h2
    · cases hfu : getUserByUsername s req.username with
      | some w => constructor <;> simp [registerHandler, hfe, hfu]
      | none =>
        exfalso
        simp only [getUserByUsername] at hfu
        have h2 := List.find?_eq_none.mp hfu u hmem
        simp [hu] at h2

/-- Witness for C4: registering with "A@X.com" — a case variant of the
stored email "a@x.com" — is rejected without touching storage. -/
theorem register_duplicate_rejected_witness :
    (registerHandler (fun p => "H." ++ p) demoStore
        { email := "A@X.com", username := "fresh", password := "pw"
          fullName := "F", userType := "individual" } 3).1 = demoStore ∧
    ((registerHandler (fun p => "H." ++ p) demoStore
        { email := "A@X.com", username := "fresh", password := "pw"
          fullName := "F", userType := "individual" } 3).2 =
        RegisterResult.badRequest "Email already in use" ∨
     (registerHandler (fun p => "H." ++ p) demoStore
        { email := "A@X.com", username := "fresh", password := "pw"
          fullName := "F", userType := "individual" } 3).2 =
        RegisterResult.badRequest "Username already taken") :=
  register_duplicate_rejected (fun p => "H." ++ p) demoStore
    { email := "A@X.com", username := "fresh", password := "pw"
      fullName := "F", userType := "individual" } 3
    (Or.inl ⟨demoUser, by decide, by decide⟩)

/-- C5: every valid registration with unique email and username creates a
User whose userType equals the request's, whose stored password is the
bcrypt hash and not the plaintext, creates the matching company or
creator profile for the new user's id, and the 201 body carries no
password key. -/
theorem register_success (hash : String → String) (s : Storage)
    (req : InsertUser) (now : Nat)
    (he : getUserByEmail s req.email = none)
    (hu : getUserByUsername s req.username = none)
    (hh : hash req.password ≠ req.password) :
    ∃ nu : User,
      (registerHandler hash s req now).2 =
        RegisterResult.created (publicUserBody nu) ∧
      getUser (registerHandler hash s req now).1 s.nextUserId = some nu ∧
      nu.userType = req.userType ∧
      nu.password = hash req.password ∧
      nu.password ≠ req.password ∧
      ((req.userType = "company" ∧
        ∃ p ∈ mapValues (registerHandler hash s req now).1.companyProfiles,
          p.userId = nu.id) ∨
       (req.userType ≠ "company" ∧
        ∃ p ∈ mapValues (registerHandler hash s req now).1.creatorProfiles,
          p.userId = nu.id)) ∧
      "password" ∉ (publicUserBody nu).map Prod.fst := by
  refine ⟨{ id := s.nextUserId, email := req.email, username := req.username
            password := hash req.password, fullName := req.fullName
            userType := req.userType, createdAt := now }, ?_, ?_, rfl, rfl, hh, ?_, ?_⟩
  · by_cases hc : req.userType = "company" <;>
      simp [registerHandler, he, hu, hc, createUser, createCompanyProfile,
        createCreatorProfile, publicUserBody]
  · by_cases hc : req.userType = "company" <;>
      simp [registerHandler, he, hu, hc, createUser, createCompanyProfile,
        createCreatorProfile, getUser, mapGet_mapSet_self]
  · by_cases hc : req.userType = "company"
    · refine Or.inl ⟨hc, ⟨s.nextCompanyProfileId, s.nextUserId, req.fullName, "", "", ""⟩,
        ?_, rfl⟩
      simp only [registerHandler, he, hu, hc, createUser, createCompanyProfile, if_true]
      simpa using mem_mapValues_mapSet s.companyProfiles s.nextCompanyProfileId
        ⟨s.nextCompanyProfileId, s.nextUserId, req.fullName, "", "", ""⟩
    · refine Or.inr ⟨hc, ⟨s.nextCreatorProfileId, s.nextUserId, "", "", ""⟩, ?_, rfl⟩
      simp only [registerHandler, he, hu, hc, createUser, createCreatorProfile, if_false]
      simpa [hc] using mem_mapValues_mapSet s.creatorProfiles s.nextCreatorProfileId
        ⟨s.nextCreatorProfileId, s.nextUserId, "", "", ""⟩
  · simp [publicUserBody]

/-- Witness for C5: a fresh registration on empty storage with a prefixing
hash stand-in; the created user ends up stored with the hashed password
and a creator profile. -/
theorem register_success_witness :
    ∃ nu : User,
      (registerHandler (fun p => "$2b$10$" ++ p) Storage.empty
          { email := "n@x.com", username := "n", password := "pw"
            fullName := "N", userType := "individual" } 4).2 =
        RegisterResult.created (publicUserBody nu) ∧
      getUser (registerHandler (fun p => "$2b$10$" ++ p) Storage.empty
          { email := "n@x.com", username := "n", password := "pw"
            fullName := "N", userType := "individual" } 4).1 1 = some nu ∧
      nu.userType = "individual" ∧
      nu.password = "$2b$10$pw" ∧
      nu.password ≠ "pw" ∧
      ((("individual" : String) = "company" ∧
        ∃ p ∈ mapValues (registerHandler (fun p => "$2b$10$" ++ p) Storage.empty
            { email := "n@x.com", username := "n", password := "pw"
              fullName := "N", userType := "individual" } 4).1.companyProfiles,
          p.userId = nu.id) ∨
       (("individual" : String) ≠ "company" ∧
        ∃ p ∈ mapValues (registerHandler (fun p => "$2b$10$" ++ p) Storage.empty
            { email := "n@x.com", username := "n", password := "pw"
              fullName := "N", userType := "individual" } 4).1.creatorProfiles,
          p.userId = nu.id)) ∧
      "password" ∉ (publicUserBody nu).map Prod.fst :=
  register_success (fun p => "$2b$10$" ++ p) Storage.empty
    { email := "n@x.com", username := "n", password := "pw"
      fullName := "N", userType := "individual" } 4
    (by decide) (by decide) (by decide)

theorem not_mem_unlinkCatch (disk : List String) (p : String) :
    p ∉ unlinkCatch disk p := by
  simp [unlinkCatch]

theorem not_mem_unlinkCatch_of_not_mem (disk : List String) (p q : String)
    (h : q ∉ disk) : q ∉ unlinkCatch disk p := by
  intro hq
  exact h (List.mem_of_mem_filter hq)

theorem not_mem_unlinkOpt_of_not_mem (disk : List String) (o : Option String)
    (q : String) (h : q ∉ disk) : q ∉ unlinkOpt disk o := by
  cases o with
  | none => exact h
  | some p =>
    by_cases hp : p ≠ ""
    · simpa [unlinkOpt, hp] using not_mem_unlinkCatch_of_not_mem disk p q h
    · simpa [unlinkOpt, hp] using h

theorem not_mem_unlinkOpt_self (disk : List String) (p : String) (hp : p ≠ "") :
    p ∉ unlinkOpt disk (some p) := by
  simpa [unlinkOpt, hp] using not_mem_unlinkCatch disk p

/-- C7: for an authenticated owner's DELETE of an existing ad, and
independently of an existing video, the storage record is removed,
deletion of the associated files is attempted (each truthy path is absent
from the disk afterwards), and the handler answers 200 for every starting
disk state — in particular when the files were already missing, the
swallowed unlink failure does not fail the delete. -/
theorem delete_removes_record_swallows_unlink (s : Storage) (disk : List String)
    (sess : Session) :
    (∀ adId a, getAd s adId = some a → a.userId = sess.userId →
      ∃ disk2, deleteAdHandler s disk (some sess) adId =
          (deleteAd s adId, disk2, HResult.ok 200 "Ad deleted successfully") ∧
        getAd (deleteAd s adId) adId = none ∧
        (a.filePath ≠ "" → a.filePath ∉ disk2)) ∧
    (∀ videoId v, getVideo s videoId = some v → v.userId = sess.userId →
      ∃ disk2, deleteVideoHandler s disk (some sess) videoId =
          (deleteVideo s videoId, disk2, HResult.ok 200 "Video deleted successfully") ∧
        getVideo (deleteVideo s videoId) videoId = none ∧
        (v.rawFilePath ≠ "" → v.rawFilePath ∉ disk2) ∧
        (∀ p, v.processedFilePath = some p → p ≠ "" → p ∉ disk2) ∧
        (∀ p, v.thumbnailPath = some p → p ≠ "" → p ∉ disk2)) := by
  constructor
  · intro adId a ha hoa
    refine ⟨if a.filePath ≠ "" then unlinkCatch disk a.filePath else disk, ?_, ?_, ?_⟩
    · simp [deleteAdHandler, ha, hoa]
    · simp [getAd, deleteAd, mapGet_mapDelete_self]
    · intro hne
      simp only [hne, if_true, ne_eq, not_false_eq_true]
      exact not_mem_unlinkCatch disk a.filePath
  · intro videoId v hv hov
    refine ⟨unlinkOpt (unlinkOpt
        (if v.rawFilePath ≠ "" then unlinkCatch disk v.rawFilePath else disk)
        v.processedFilePath) v.thumbnailPath, ?_, ?_, ?_, ?_, ?_⟩
    · simp [deleteVideoHandler, hv, hov]
    · simp [getVideo, deleteVideo, mapGet_mapDelete_self]
    · intro hne
      simp only [hne, if_true, ne_eq, not_false_eq_true]
      exact not_mem_unlinkOpt_of_not_mem _ _ _
        (not_mem_unlinkOpt_of_not_mem _ _ _ (not_mem_unlinkCatch disk v.rawFilePath))
    · intro p hp hpne
      rw [hp]
      exact not_mem_unlinkOpt_of_not_mem _ _ _ (not_mem_unlinkOpt_self _ p hpne)
    · intro p hp hpne
      rw [hp]
      exact not_mem_unlinkOpt_self _ p hpne

/-- Demo fixture: a store holding only an ad, no videos. -/
def adOnlyStore : Storage :=
  { Storage.empty with ads := [(1, demoAd)], nextAdId := 2 }

/-- Witness for C7: deleting the only ad of a video-free store and the
demo video, each against an empty disk (files missing), still succeeds
with 200 and removes the record. -/
theorem delete_removes_record_swallows_unlink_witness :
    (∃ disk2, deleteAdHandler adOnlyStore [] (some demoSession) 1 =
        (deleteAd adOnlyStore 1, disk2, HResult.ok 200 "Ad deleted successfully") ∧
      getAd (deleteAd adOnlyStore 1) 1 = none ∧
      (demoAd.filePath ≠ "" → demoAd.filePath ∉ disk2)) ∧
    (∃ disk2, deleteVideoHandler demoStore [] (some demoSession) 1 =
        (deleteVideo demoStore 1, disk2, HResult.ok 200 "Video deleted successfully") ∧
      getVideo (deleteVideo demoStore 1) 1 = none ∧
      (demoVideo.rawFilePath ≠ "" → demoVideo.rawFilePath ∉ disk2) ∧
      (∀ p, demoVideo.processedFilePath = some p → p ≠ "" → p ∉ disk2) ∧
      (∀ p, demoVideo.thumbnailPath = some p → p ≠ "" → p ∉ disk2)) :=
  ⟨(delete_removes_record_swallows_unlink adOnlyStore [] demoSession).1 1 demoAd
      (by decide) (by decide),
   (delete_removes_record_swallows_unlink demoStore [] demoSession).2 1 demoVideo
      (by decide) (by decide)⟩

/-- C9: every owner PATCH on /api/campaigns/:id, /api/ads/:id or
/api/videos/:id — each route taken independently — shallow-merges the raw
request body onto the stored record with no field restricted: the
persisted entity is the field-by-field merge, and a body-supplied id,
userId or createdAt replaces the stored value. -/
theorem patch_raw_shallow_merge (s : Storage) (sess : Session) :
    (∀ cid c cp, getCampaign s cid = some c → c.userId = sess.userId →
      (patchCampaignHandler s (some sess) cid cp).2 =
        HResult.ok 200 (mergeCampaign c cp) ∧
      getCampaign (patchCampaignHandler s (some sess) cid cp).1 cid =
        some (mergeCampaign c cp) ∧
      (mergeCampaign c cp).id = cp.id.getD c.id ∧
      (mergeCampaign c cp).userId = cp.userId.getD c.userId ∧
      (mergeCampaign c cp).createdAt = cp.createdAt.getD c.createdAt) ∧
    (∀ aid a ap, getAd s aid = some a → a.userId = sess.userId →
      (patchAdHandler s (some sess) aid ap).2 = HResult.ok 200 (mergeAd a ap) ∧
      getAd (patchAdHandler s (some sess) aid ap).1 aid = some (mergeAd a ap) ∧
      (mergeAd a ap).id = ap.id.getD a.id ∧
      (mergeAd a ap).userId = ap.userId.getD a.userId ∧
      (mergeAd a ap).createdAt = ap.createdAt.getD a.createdAt) ∧
    (∀ vid v vp, getVideo s vid = some v → v.userId = sess.userId →
      (patchVideoHandler s (some sess) vid vp).2 = HResult.ok 200 (mergeVideo v vp) ∧
      getVideo (patchVideoHandler s (some sess) vid vp).1 vid =
        some (mergeVideo v vp) ∧
      (mergeVideo v vp).id = vp.id.getD v.id ∧
      (mergeVideo v vp).userId = vp.userId.getD v.userId ∧
      (mergeVideo v vp).createdAt = vp.createdAt.getD v.createdAt) := by
  refine ⟨?_, ?_, ?_⟩
  · intro cid c cp hc hoc
    have hmc : mapGet s.campaigns cid = some c := hc
    refine ⟨?_, ?_, rfl, rfl, rfl⟩
    · simp [patchCampaignHandler, updateCampaign, getCampaign, hmc, hoc]
    · simp [patchCampaignHandler, updateCampaign, getCampaign, hmc, hoc,
        mapGet_mapSet_self]
  · intro aid a ap ha hoa
    have hma : mapGet s.ads aid = some a := ha
    refine ⟨?_, ?_, rfl, rfl, rfl⟩
    · simp [patchAdHandler, updateAd, getAd, hma, hoa]
    · simp [patchAdHandler, updateAd, getAd, hma, hoa, mapGet_mapSet_self]
  · intro vid v vp hv hov
    have hmv : mapGet s.videos vid = some v := hv
    refine ⟨?_, ?_, rfl, rfl, rfl⟩
    · simp [patchVideoHandler, updateVideo, getVideo, hmv, hov]
    · simp [patchVideoHandler, updateVideo, getVideo, hmv, hov, mapGet_mapSet_self]

/-- Demo fixture: a PATCH body that rewrites protected-looking fields. -/
def evilVideoPatch : VideoPatch :=
  { id := some 5, userId := some 99, createdAt := some 123 }

/-- Demo fixture: a creator's store holding only their video — no
campaigns or ads. -/
def videoOnlyStore : Storage :=
  { Storage.empty with videos := [(1, demoVideo)], nextVideoId := 2 }

/-- Witness for C9: a creator patching their only video with a body that
sets id 5, userId 99 and createdAt 123 persists exactly those values. -/
theorem patch_raw_shallow_merge_witness :
    (patchVideoHandler videoOnlyStore (some demoSession) 1 evilVideoPatch).2 =
      HResult.ok 200 (mergeVideo demoVideo evilVideoPatch) ∧
    getVideo (patchVideoHandler videoOnlyStore (some demoSession) 1
        evilVideoPatch).1 1 = some (mergeVideo demoVideo evilVideoPatch) ∧
    (mergeVideo demoVideo evilVideoPatch).id =
      evilVideoPatch.id.getD demoVideo.id ∧
    (mergeVideo demoVideo evilVideoPatch).userId =
      evilVideoPatch.userId.getD demoVideo.userId ∧
    (mergeVideo demoVideo evilVideoPatch).createdAt =
      evilVideoPatch.createdAt.getD demoVideo.createdAt :=
  (patch_raw_shallow_merge videoOnlyStore demoSession).2.2 1 demoVideo evilVideoPatch
    (by decide) (by decide)

end AdStreamr
